import Mathlib

/-!
Verification of the service-control client cache decision layer
(`src/envoy/http/service_control/client_cache.cc`).

The embedding models the Decision Engine (`handleCheckResponse`,
`handleQuotaOnDone`), the Response Decoder (`processScCallTransportStatus`),
the configuration defaulting (`initHttpRequestSetting`) and the statistics
sinks (`collectCallStatus`, `collectScResponseErrorStats`).

External collaborators (the protobuf message types, the aggregation client,
`ConvertCheckResponse` / `ConvertAllocateQuotaResponse`) are abstracted:
conversion results are universally quantified parameters, and protobuf
parsing is an abstract `String → Option Response` function.
-/

namespace ClientCache

/-- The canonical status codes of `google::protobuf::util::StatusCode`
(mirroring `absl::StatusCode`). -/
inductive StatusCode where
  | kOk
  | kCancelled
  | kUnknown
  | kInvalidArgument
  | kDeadlineExceeded
  | kNotFound
  | kAlreadyExists
  | kPermissionDenied
  | kResourceExhausted
  | kFailedPrecondition
  | kAborted
  | kOutOfRange
  | kUnimplemented
  | kInternal
  | kUnavailable
  | kDataLoss
  | kUnauthenticated
  deriving DecidableEq, Repr

/-- Source `google::protobuf::util::Status`: a code together with an error message. -/
structure Status where
  code : StatusCode
  message : String
  deriving DecidableEq, Repr

/-- Source `Status::ok()`: the status code is `kOk`. -/
def Status.ok (s : Status) : Bool :=
  decide (s.code = StatusCode.kOk)

/-- Source `OkStatus()`: the successful status. -/
def OkStatus : Status :=
  { code := StatusCode.kOk, message := "" }

/-- Source `absl::StatusCodeToString` on the canonical codes. -/
def StatusCodeToString : StatusCode → String
  | StatusCode.kOk => "OK"
  | StatusCode.kCancelled => "CANCELLED"
  | StatusCode.kUnknown => "UNKNOWN"
  | StatusCode.kInvalidArgument => "INVALID_ARGUMENT"
  | StatusCode.kDeadlineExceeded => "DEADLINE_EXCEEDED"
  | StatusCode.kNotFound => "NOT_FOUND"
  | StatusCode.kAlreadyExists => "ALREADY_EXISTS"
  | StatusCode.kPermissionDenied => "PERMISSION_DENIED"
  | StatusCode.kResourceExhausted => "RESOURCE_EXHAUSTED"
  | StatusCode.kFailedPrecondition => "FAILED_PRECONDITION"
  | StatusCode.kAborted => "ABORTED"
  | StatusCode.kOutOfRange => "OUT_OF_RANGE"
  | StatusCode.kUnimplemented => "UNIMPLEMENTED"
  | StatusCode.kInternal => "INTERNAL"
  | StatusCode.kUnavailable => "UNAVAILABLE"
  | StatusCode.kDataLoss => "DATA_LOSS"
  | StatusCode.kUnauthenticated => "UNAUTHENTICATED"

/-- Modelled from the spec: `ScResponseErrorType` (declared in
`src/api_proxy/service_control`, outside the provided source). The spec's
error taxonomy subtypes the service-level errors by
ConsumerBlocked, ConsumerError, ServiceNotActivated, ApiKeyInvalid and
ConsumerQuota; `ERROR_TYPE_UNSPECIFIED` is the value used by
`failCallStatusToScResponseError` for transport failures. -/
inductive ScResponseErrorType where
  | ERROR_TYPE_UNSPECIFIED
  | CONSUMER_BLOCKED
  | CONSUMER_ERROR
  | SERVICE_NOT_ACTIVATED
  | API_KEY_INVALID
  | CONSUMER_QUOTA
  deriving DecidableEq, Repr

/-- Modelled from the spec: `ApiKeyState` (declared in
`src/api_proxy/service_control`, outside the provided source): the spec's
enum {VERIFIED, NOT_CHECKED, INVALID, NOT_ENABLED}. -/
inductive ApiKeyState where
  | VERIFIED
  | NOT_CHECKED
  | INVALID
  | NOT_ENABLED
  deriving DecidableEq, Repr

/-- Modelled from the spec: `ScResponseError` (declared in
`src/api_proxy/service_control`, outside the provided source); the shape is
fixed by the braced initializer in `failCallStatusToScResponseError`:
an error name, an `is_network_error` flag and an error type. -/
structure ScResponseError where
  name : String
  is_network_error : Bool
  type : ScResponseErrorType
  deriving DecidableEq, Repr

/-- Modelled from the spec: a default-constructed `ScResponseError` — empty
name, not a network error, unspecified type. -/
def ScResponseError.default : ScResponseError :=
  { name := "", is_network_error := false,
    type := ScResponseErrorType.ERROR_TYPE_UNSPECIFIED }

/-- Modelled from the spec: `CheckResponseInfo` (declared in
`src/api_proxy/service_control`, outside the provided source): the
ResponseInfo record with an error field and an `apiKeyState` field; the
spec's §3 ResponseInfo data model. Default-constructed with an empty error
and an unevaluated API key. -/
structure CheckResponseInfo where
  error : ScResponseError
  api_key_state : ApiKeyState
  deriving DecidableEq, Repr

/-- Modelled from the spec: a default-constructed `CheckResponseInfo`. -/
def CheckResponseInfo.default : CheckResponseInfo :=
  { error := ScResponseError.default, api_key_state := ApiKeyState.NOT_CHECKED }

/-- Modelled from the spec: `QuotaResponseInfo` (declared in
`src/api_proxy/service_control`, outside the provided source): the Quota
variant of the ResponseInfo record, holding the error field consulted by
`handleQuotaOnDone`. -/
structure QuotaResponseInfo where
  error : ScResponseError
  deriving DecidableEq, Repr

/-- Modelled from the spec: a default-constructed `QuotaResponseInfo`. -/
def QuotaResponseInfo.default : QuotaResponseInfo :=
  { error := ScResponseError.default }

/-- Source `failCallStatusToScResponseError`: convert an http error status into the
`ScResponseError` — the name is the textual status code, `is_network_error`
is true, the type is `ERROR_TYPE_UNSPECIFIED`. -/
def failCallStatusToScResponseError (status : Status) : ScResponseError :=
  { name := StatusCodeToString status.code,
    is_network_error := true,
    type := ScResponseErrorType.ERROR_TYPE_UNSPECIFIED }

/-- The filter-level counters mutated by the Decision Engine
(`filter_stats_.filter_`). -/
structure FilterStats where
  allowed_control_plane_fault : Nat
  denied_control_plane_fault : Nat
  denied_producer_error : Nat
  denied_consumer_blocked : Nat
  denied_consumer_error : Nat
  denied_consumer_quota : Nat
  deriving DecidableEq, Repr

/-- Source `ClientCache::collectScResponseErrorStats`: the switch over the
service-control response error type, with the `CONSUMER_QUOTA` case falling
through into the (empty) default case. -/
def collectScResponseErrorStats (stats : FilterStats)
    (error_type : ScResponseErrorType) : FilterStats :=
  match error_type with
  | ScResponseErrorType.CONSUMER_BLOCKED =>
      { stats with denied_consumer_blocked := stats.denied_consumer_blocked + 1 }
  | ScResponseErrorType.CONSUMER_ERROR =>
      { stats with denied_consumer_error := stats.denied_consumer_error + 1 }
  | ScResponseErrorType.SERVICE_NOT_ACTIVATED =>
      { stats with denied_consumer_error := stats.denied_consumer_error + 1 }
  | ScResponseErrorType.API_KEY_INVALID =>
      { stats with denied_consumer_error := stats.denied_consumer_error + 1 }
  | ScResponseErrorType.CONSUMER_QUOTA =>
      { stats with denied_consumer_quota := stats.denied_consumer_quota + 1 }
  | ScResponseErrorType.ERROR_TYPE_UNSPECIFIED => stats

/-- Per-call-type call-status counters (`CallStatusStats`), keyed by the
resulting status code. -/
def CallStatusStats : Type := StatusCode → Nat

/-- Source `ClientCache::collectCallStatus`: increment the counter keyed by the
given status code. -/
def collectCallStatus (call_stats : CallStatusStats) (code : StatusCode) :
    CallStatusStats :=
  fun c => if c = code then call_stats c + 1 else call_stats c

/-- The three per-call-type stats sinks of `ServiceControlFilterStats`
(`check_`, `allocate_quota_`, `report_`). -/
structure ScCallStats where
  check_ : CallStatusStats
  allocate_quota_ : CallStatusStats
  report_ : CallStatusStats

/-- Source `ClientCache::processScCallTransportStatus`: if the transport status is
not ok, return it unchanged without parsing; otherwise parse the body into
the typed response, returning `kInvalidArgument` on parse failure and the
(successful) transport status with the populated response on success.
Protobuf parsing is abstracted as `parse : String → Option Response`. -/
def processScCallTransportStatus {Response : Type}
    (parse : String → Option Response) (status : Status)
    (resp : Option Response) (body : String) : Status × Option Response :=
  if !status.ok then
    (status, resp)
  else
    match parse body with
    | none => ({ code := StatusCode.kInvalidArgument,
                 message := "Invalid response" }, resp)
    | some r => (status, some r)

/-- The transport completion lambda of `options.check_transport` and of
`callCheck`'s per-request `check_transport`: decode via
`processScCallTransportStatus`, collect the check call status keyed by the
final status code, and deliver the final status. -/
def checkTransportOnDone {Response : Type}
    (parse : String → Option Response) (status : Status)
    (resp : Option Response) (body : String) (stats : ScCallStats) :
    Status × Option Response × ScCallStats :=
  let decoded := processScCallTransportStatus parse status resp body
  (decoded.1, decoded.2,
   { stats with check_ := collectCallStatus stats.check_ decoded.1.code })

/-- The transport completion lambda of `options.quota_transport`. -/
def quotaTransportOnDone {Response : Type}
    (parse : String → Option Response) (status : Status)
    (resp : Option Response) (body : String) (stats : ScCallStats) :
    Status × Option Response × ScCallStats :=
  let decoded := processScCallTransportStatus parse status resp body
  (decoded.1, decoded.2,
   { stats with allocate_quota_ :=
       collectCallStatus stats.allocate_quota_ decoded.1.code })

/-- The transport completion lambda of `options.report_transport`. -/
def reportTransportOnDone {Response : Type}
    (parse : String → Option Response) (status : Status)
    (resp : Option Response) (body : String) (stats : ScCallStats) :
    Status × Option Response × ScCallStats :=
  let decoded := processScCallTransportStatus parse status resp body
  (decoded.1, decoded.2,
   { stats with report_ := collectCallStatus stats.report_ decoded.1.code })

/-! ### Configuration defaulting (`initHttpRequestSetting`) -/

/-- Source constant `kCheckDefaultTimeoutInMs`. -/
def kCheckDefaultTimeoutInMs : Nat := 1000

/-- Source constant `kAllocateQuotaDefaultTimeoutInMs`. -/
def kAllocateQuotaDefaultTimeoutInMs : Nat := 1000

/-- Source constant `kReportDefaultTimeoutInMs`. -/
def kReportDefaultTimeoutInMs : Nat := 2000

/-- Source constant `kCheckDefaultNumberOfRetries`. -/
def kCheckDefaultNumberOfRetries : Nat := 3

/-- Source constant `kAllocateQuotaDefaultNumberOfRetries`. -/
def kAllocateQuotaDefaultNumberOfRetries : Nat := 1

/-- Source constant `kReportDefaultNumberOfRetries`. -/
def kReportDefaultNumberOfRetries : Nat := 5

/-- Source constant `kDefaultNetworkFailOpen`. -/
def kDefaultNetworkFailOpen : Bool := true

/-- The `ScCallingConfig` proto message: every field is optional
(`has_x()` / `x().value()` access in the source). -/
structure ScCallingConfig where
  network_fail_open : Option Bool
  check_timeout_ms : Option Nat
  quota_timeout_ms : Option Nat
  report_timeout_ms : Option Nat
  check_retries : Option Nat
  quota_retries : Option Nat
  report_retries : Option Nat
  deriving DecidableEq, Repr

/-- The part of `FilterConfig` consulted by `initHttpRequestSetting`: the
optional `sc_calling_config` message. -/
structure FilterConfig where
  sc_calling_config : Option ScCallingConfig
  deriving DecidableEq, Repr

/-- The settings fields of `ClientCache` assigned by
`initHttpRequestSetting`. -/
structure HttpRequestSetting where
  network_fail_open_ : Bool
  check_timeout_ms_ : Nat
  quota_timeout_ms_ : Nat
  report_timeout_ms_ : Nat
  check_retries_ : Nat
  quota_retries_ : Nat
  report_retries_ : Nat
  deriving DecidableEq, Repr

/-- Source `ClientCache::initHttpRequestSetting`: with no `sc_calling_config` every
field takes its default; otherwise each present field takes its configured
value and each absent field its default (the absent `network_fail_open`
falls back to the literal `true`). -/
def initHttpRequestSetting (filter_config : FilterConfig) :
    HttpRequestSetting :=
  match filter_config.sc_calling_config with
  | none =>
      { network_fail_open_ := kDefaultNetworkFailOpen,
        check_timeout_ms_ := kCheckDefaultTimeoutInMs,
        quota_timeout_ms_ := kAllocateQuotaDefaultTimeoutInMs,
        report_timeout_ms_ := kReportDefaultTimeoutInMs,
        check_retries_ := kCheckDefaultNumberOfRetries,
        quota_retries_ := kAllocateQuotaDefaultNumberOfRetries,
        report_retries_ := kReportDefaultNumberOfRetries }
  | some sc_calling_config =>
      { network_fail_open_ := sc_calling_config.network_fail_open.getD true,
        check_timeout_ms_ :=
          sc_calling_config.check_timeout_ms.getD kCheckDefaultTimeoutInMs,
        quota_timeout_ms_ :=
          sc_calling_config.quota_timeout_ms.getD
            kAllocateQuotaDefaultTimeoutInMs,
        report_timeout_ms_ :=
          sc_calling_config.report_timeout_ms.getD kReportDefaultTimeoutInMs,
        check_retries_ :=
          sc_calling_config.check_retries.getD kCheckDefaultNumberOfRetries,
        quota_retries_ :=
          sc_calling_config.quota_retries.getD
            kAllocateQuotaDefaultNumberOfRetries,
        report_retries_ :=
          sc_calling_config.report_retries.getD kReportDefaultNumberOfRetries }

/-! ### The Decision Engine for Check (`handleCheckResponse`)

The converted result of `ConvertCheckResponse(*response, service_name,
&response_info)` is abstracted as a pair `convert : Status ×
CheckResponseInfo` (the external domain conversion); `handleCheckResponse`
is universally quantified over it. -/

/-- The `final_status` local of `handleCheckResponse`: the converted
service-level status when the http call succeeded, the http status
otherwise. -/
def checkFinalStatus (convert : Status × CheckResponseInfo)
    (http_status : Status) : Status :=
  if http_status.ok then convert.1 else http_status

/-- The `response_info` local of `handleCheckResponse` before the branch on
`final_status`: populated by the conversion when the http call succeeded,
default-constructed otherwise. -/
def checkPreInfo (convert : Status × CheckResponseInfo)
    (http_status : Status) : CheckResponseInfo :=
  if http_status.ok then convert.2 else CheckResponseInfo.default

/-- The filter stats of `handleCheckResponse` after the pre-branch
`collectScResponseErrorStats` call (made only when the http call
succeeded). -/
def checkPreStats (convert : Status × CheckResponseInfo)
    (http_status : Status) (stats : FilterStats) : FilterStats :=
  if http_status.ok then
    collectScResponseErrorStats stats convert.2.error.type
  else
    stats

/-- The observable outcome of one `handleCheckResponse` run: the sequence of
`on_done` invocations (each delivering a status and a response info), the
filter stats afterwards, and the trace of assignments to
`response_info.api_key_state`. -/
structure CheckHandleResult where
  invocations : List (Status × CheckResponseInfo)
  stats : FilterStats
  apiKeyAssignments : List ApiKeyState
  deriving DecidableEq, Repr

/-- Source `ClientCache::handleCheckResponse`: the Check Decision Engine. Branches
on the final status: OK (trusted key, allow), Unavailable (network fault,
fail-open policy), otherwise transport fault (scrub to internal) or
service-level rejection (classify the API key by error type). -/
def handleCheckResponse (network_fail_open : Bool)
    (convert : Status × CheckResponseInfo) (http_status : Status)
    (stats : FilterStats) : CheckHandleResult :=
  let final_status := checkFinalStatus convert http_status
  let response_info := checkPreInfo convert http_status
  let stats1 := checkPreStats convert http_status stats
  if final_status.ok then
    { invocations :=
        [(final_status,
          { response_info with api_key_state := ApiKeyState.VERIFIED })],
      stats := stats1,
      apiKeyAssignments := [ApiKeyState.VERIFIED] }
  else if final_status.code = StatusCode.kUnavailable then
    let response_info :=
      { response_info with api_key_state := ApiKeyState.NOT_CHECKED }
    if network_fail_open then
      { invocations := [(OkStatus, response_info)],
        stats :=
          { stats1 with allowed_control_plane_fault :=
              stats1.allowed_control_plane_fault + 1 },
        apiKeyAssignments := [ApiKeyState.NOT_CHECKED] }
    else
      let response_info :=
        if !http_status.ok then
          { response_info with
              error := failCallStatusToScResponseError http_status }
        else
          response_info
      { invocations := [(final_status, response_info)],
        stats :=
          { stats1 with denied_control_plane_fault :=
              stats1.denied_control_plane_fault + 1 },
        apiKeyAssignments := [ApiKeyState.NOT_CHECKED] }
  else
    if !http_status.ok then
      let scrubbed_status : Status :=
        { code := StatusCode.kInternal, message := final_status.message }
      { invocations :=
          [(scrubbed_status,
            { response_info with
                api_key_state := ApiKeyState.NOT_CHECKED,
                error := failCallStatusToScResponseError http_status })],
        stats :=
          { stats1 with denied_producer_error :=
              stats1.denied_producer_error + 1 },
        apiKeyAssignments := [ApiKeyState.NOT_CHECKED] }
    else
      let state :=
        if response_info.error.type = ScResponseErrorType.API_KEY_INVALID then
          ApiKeyState.INVALID
        else if response_info.error.type =
            ScResponseErrorType.SERVICE_NOT_ACTIVATED then
          ApiKeyState.NOT_ENABLED
        else
          ApiKeyState.VERIFIED
      { invocations :=
          [(final_status, { response_info with api_key_state := state })],
        stats := stats1,
        apiKeyAssignments := [state] }

/-! ### The Decision Engine for Quota (`handleQuotaOnDone`) -/

/-- The observable outcome of one `handleQuotaOnDone` run. -/
structure QuotaHandleResult where
  invocations : List (Status × QuotaResponseInfo)
  stats : FilterStats
  deriving DecidableEq, Repr

/-- Source `ClientCache::handleQuotaOnDone`: on transport success, deliver the
converted quota status and response info unchanged (after collecting the
error stats); on transport failure, record a producer error, synthesize the
response error from the transport status, and deliver the transport status
unchanged. `ConvertAllocateQuotaResponse` is abstracted as the pair
`convert`. -/
def handleQuotaOnDone (convert : Status × QuotaResponseInfo)
    (http_status : Status) (stats : FilterStats) : QuotaHandleResult :=
  if http_status.ok then
    let quota_status := convert.1
    let response_info := convert.2
    { invocations := [(quota_status, response_info)],
      stats := collectScResponseErrorStats stats response_info.error.type }
  else
    let response_info :=
      { QuotaResponseInfo.default with
          error := failCallStatusToScResponseError http_status }
    { invocations := [(http_status, response_info)],
      stats :=
        { stats with denied_producer_error :=
            stats.denied_producer_error + 1 } }

/-! ### Helper lemmas -/

theorem Status.ok_iff (s : Status) : s.ok = true ↔ s.code = StatusCode.kOk := by
  simp [Status.ok]

theorem Status.ok_eq_false_iff (s : Status) :
    s.ok = false ↔ s.code ≠ StatusCode.kOk := by
  simp [Status.ok]

theorem collectScResponseErrorStats_allowed (stats : FilterStats)
    (t : ScResponseErrorType) :
    (collectScResponseErrorStats stats t).allowed_control_plane_fault =
      stats.allowed_control_plane_fault := by
  cases t <;> rfl

theorem collectScResponseErrorStats_denied_producer (stats : FilterStats)
    (t : ScResponseErrorType) :
    (collectScResponseErrorStats stats t).denied_producer_error =
      stats.denied_producer_error := by
  cases t <;> rfl

/-! ### Claim theorems -/

/-- C4: the Response Decoder `processScCallTransportStatus` propagates a
failed transport status unchanged without parsing, returns an
InvalidArgument error when the body fails to parse under a successful
transport status, and returns the successful transport status with the
populated typed response when the parse succeeds. -/
theorem processScCallTransportStatus_decoder_spec {Response : Type}
    (parse : String → Option Response) (status : Status)
    (resp : Option Response) (body : String) :
    (status.ok = false →
      processScCallTransportStatus parse status resp body = (status, resp)) ∧
    (status.ok = true → parse body = none →
      processScCallTransportStatus parse status resp body =
        ({ code := StatusCode.kInvalidArgument,
           message := "Invalid response" }, resp)) ∧
    (status.ok = true → ∀ r, parse body = some r →
      processScCallTransportStatus parse status resp body =
        (status, some r)) := by
  refine ⟨?_, ?_, ?_⟩
  · intro h
    simp [processScCallTransportStatus, h]
  · intro h hp
    simp [processScCallTransportStatus, h, hp]
  · intro h r hp
    simp [processScCallTransportStatus, h, hp]

/-- Witness for C4: a concrete failed transport status is propagated
unchanged. -/
theorem processScCallTransportStatus_decoder_witness :
    processScCallTransportStatus (fun _ => (none : Option Unit))
      { code := StatusCode.kUnavailable, message := "m" } none "b" =
      ({ code := StatusCode.kUnavailable, message := "m" }, none) :=
  (processScCallTransportStatus_decoder_spec (fun _ => (none : Option Unit))
    { code := StatusCode.kUnavailable, message := "m" } none "b").1 (by decide)

/-- C8: `initHttpRequestSetting` falls back to the fixed defaults (Check
1000ms/3 retries, Quota 1000ms/1 retry, Report 2000ms/5 retries, network
fail open true) when the calling config or a field of it is absent, and
uses the configured value when a field is present. -/
theorem initHttpRequestSetting_spec (cfg : ScCallingConfig) :
    (initHttpRequestSetting { sc_calling_config := none } =
      { network_fail_open_ := true, check_timeout_ms_ := 1000,
        quota_timeout_ms_ := 1000, report_timeout_ms_ := 2000,
        check_retries_ := 3, quota_retries_ := 1, report_retries_ := 5 }) ∧
    (let s := initHttpRequestSetting { sc_calling_config := some cfg }
     (cfg.network_fail_open = none → s.network_fail_open_ = true) ∧
     (∀ b, cfg.network_fail_open = some b → s.network_fail_open_ = b) ∧
     (cfg.check_timeout_ms = none → s.check_timeout_ms_ = 1000) ∧
     (∀ v, cfg.check_timeout_ms = some v → s.check_timeout_ms_ = v) ∧
     (cfg.quota_timeout_ms = none → s.quota_timeout_ms_ = 1000) ∧
     (∀ v, cfg.quota_timeout_ms = some v → s.quota_timeout_ms_ = v) ∧
     (cfg.report_timeout_ms = none → s.report_timeout_ms_ = 2000) ∧
     (∀ v, cfg.report_timeout_ms = some v → s.report_timeout_ms_ = v) ∧
     (cfg.check_retries = none → s.check_retries_ = 3) ∧
     (∀ v, cfg.check_retries = some v → s.check_retries_ = v) ∧
     (cfg.quota_retries = none → s.quota_retries_ = 1) ∧
     (∀ v, cfg.quota_retries = some v → s.quota_retries_ = v) ∧
     (cfg.report_retries = none → s.report_retries_ = 5) ∧
     (∀ v, cfg.report_retries = some v → s.report_retries_ = v)) := by
  refine ⟨rfl, ?_, ?_, ?_, ?_, ?_, ?_, ?_, ?_, ?_, ?_, ?_, ?_, ?_, ?_⟩ <;>
    first
    | (intro h
       simp [initHttpRequestSetting, h, kCheckDefaultTimeoutInMs,
         kAllocateQuotaDefaultTimeoutInMs, kReportDefaultTimeoutInMs,
         kCheckDefaultNumberOfRetries, kAllocateQuotaDefaultNumberOfRetries,
         kReportDefaultNumberOfRetries])
    | (intro v h
       simp [initHttpRequestSetting, h])

/-- Witness for C8: a config with an explicit fail-closed flag and explicit
check timeout yields those values. -/
theorem initHttpRequestSetting_witness :
    (initHttpRequestSetting
      { sc_calling_config :=
          some { network_fail_open := some false, check_timeout_ms := some 42,
                 quota_timeout_ms := none, report_timeout_ms := none,
                 check_retries := none, quota_retries := none,
                 report_retries := none } }).network_fail_open_ = false :=
  (initHttpRequestSetting_spec
    { network_fail_open := some false, check_timeout_ms := some 42,
      quota_timeout_ms := none, report_timeout_ms := none,
      check_retries := none, quota_retries := none,
      report_retries := none }).2.2.1 false rfl

/-- C6: `handleQuotaOnDone` passes a successful transport outcome through
the domain conversion unchanged (success or service-level denial alike),
and on transport failure records a producer error, synthesizes the response
error from the transport status, and delivers the transport status itself
(no deny substituted, no fail-open branching — the function does not even
consult the fail-open flag). -/
theorem handleQuotaOnDone_spec (convert : Status × QuotaResponseInfo)
    (http_status : Status) (stats : FilterStats) :
    (http_status.ok = true →
      handleQuotaOnDone convert http_status stats =
        { invocations := [(convert.1, convert.2)],
          stats := collectScResponseErrorStats stats convert.2.error.type }) ∧
    (http_status.ok = false →
      handleQuotaOnDone convert http_status stats =
        { invocations :=
            [(http_status,
              { error := failCallStatusToScResponseError http_status })],
          stats :=
            { stats with denied_producer_error :=
                stats.denied_producer_error + 1 } }) := by
  constructor
  · intro h
    simp [handleQuotaOnDone, h]
  · intro h
    simp [handleQuotaOnDone, h, QuotaResponseInfo.default]

/-- Witness for C6: a concrete successful transport outcome is passed
through unchanged. -/
theorem handleQuotaOnDone_spec_witness :
    handleQuotaOnDone
      ({ code := StatusCode.kResourceExhausted, message := "quota" },
       { error := { name := "q", is_network_error := false,
                    type := ScResponseErrorType.CONSUMER_QUOTA } })
      OkStatus ⟨0, 0, 0, 0, 0, 0⟩ =
    { invocations :=
        [({ code := StatusCode.kResourceExhausted, message := "quota" },
          { error := { name := "q", is_network_error := false,
                       type := ScResponseErrorType.CONSUMER_QUOTA } })],
      stats := ⟨0, 0, 0, 0, 0, 1⟩ } :=
  (handleQuotaOnDone_spec
    ({ code := StatusCode.kResourceExhausted, message := "quota" },
     { error := { name := "q", is_network_error := false,
                  type := ScResponseErrorType.CONSUMER_QUOTA } })
    OkStatus ⟨0, 0, 0, 0, 0, 0⟩).1 rfl

/-- C9: each completed transport call increments exactly one call-status
counter, keyed by the call type's sink and the resulting status code (the
other codes and the other call types' sinks are untouched); and in the
service-level error stats each denial error type increments exactly one
denial counter, with the `CONSUMER_QUOTA` case incrementing
`denied_consumer_quota` and falling through into the empty default case
(no further counter). -/
theorem stats_one_counter_per_call {Response : Type}
    (parse : String → Option Response) (status : Status)
    (resp : Option Response) (body : String) (stats : ScCallStats)
    (fstats : FilterStats) :
    (let r := checkTransportOnDone parse status resp body stats
     r.2.2.check_ r.1.code = stats.check_ r.1.code + 1 ∧
     (∀ c, c ≠ r.1.code → r.2.2.check_ c = stats.check_ c) ∧
     r.2.2.allocate_quota_ = stats.allocate_quota_ ∧
     r.2.2.report_ = stats.report_) ∧
    (let r := quotaTransportOnDone parse status resp body stats
     r.2.2.allocate_quota_ r.1.code = stats.allocate_quota_ r.1.code + 1 ∧
     (∀ c, c ≠ r.1.code → r.2.2.allocate_quota_ c = stats.allocate_quota_ c) ∧
     r.2.2.check_ = stats.check_ ∧
     r.2.2.report_ = stats.report_) ∧
    (let r := reportTransportOnDone parse status resp body stats
     r.2.2.report_ r.1.code = stats.report_ r.1.code + 1 ∧
     (∀ c, c ≠ r.1.code → r.2.2.report_ c = stats.report_ c) ∧
     r.2.2.check_ = stats.check_ ∧
     r.2.2.allocate_quota_ = stats.allocate_quota_) ∧
    (collectScResponseErrorStats fstats ScResponseErrorType.CONSUMER_BLOCKED =
      { fstats with denied_consumer_blocked :=
          fstats.denied_consumer_blocked + 1 }) ∧
    (collectScResponseErrorStats fstats ScResponseErrorType.CONSUMER_ERROR =
      { fstats with denied_consumer_error :=
          fstats.denied_consumer_error + 1 }) ∧
    (collectScResponseErrorStats fstats
        ScResponseErrorType.SERVICE_NOT_ACTIVATED =
      { fstats with denied_consumer_error :=
          fstats.denied_consumer_error + 1 }) ∧
    (collectScResponseErrorStats fstats ScResponseErrorType.API_KEY_INVALID =
      { fstats with denied_consumer_error :=
          fstats.denied_consumer_error + 1 }) ∧
    (collectScResponseErrorStats fstats ScResponseErrorType.CONSUMER_QUOTA =
      { fstats with denied_consumer_quota :=
          fstats.denied_consumer_quota + 1 }) ∧
    (collectScResponseErrorStats fstats
        ScResponseErrorType.ERROR_TYPE_UNSPECIFIED = fstats) := by
  refine ⟨⟨?_, ?_, rfl, rfl⟩, ⟨?_, ?_, rfl, rfl⟩, ⟨?_, ?_, rfl, rfl⟩,
      rfl, rfl, rfl, rfl, rfl, rfl⟩ <;>
    simp [checkTransportOnDone, quotaTransportOnDone, reportTransportOnDone,
      collectCallStatus]

/-- Witness for C9: a concrete successful check transport completion bumps
the check sink's `kOk` counter from 0 to 1. -/
theorem stats_one_counter_per_call_witness :
    (checkTransportOnDone (fun _ => some ()) OkStatus none ""
      ⟨fun _ => 0, fun _ => 0, fun _ => 0⟩).2.2.check_ StatusCode.kOk =
      (0 : Nat) + 1 :=
  (stats_one_counter_per_call (fun _ => some ()) OkStatus none ""
    ⟨fun _ => 0, fun _ => 0, fun _ => 0⟩ ⟨0, 0, 0, 0, 0, 0⟩).1.1

/-- C10: every `ScResponseError` synthesized from a transport failure is a
network error with type `ERROR_TYPE_UNSPECIFIED` (so it never matches the
API-key classification cases and increments no per-error-type denial
counter), and the Check fail-closed path, the Check operator-fault path and
the Quota failure path all set the delivered ResponseInfo error from the
transport status this way. -/
theorem transport_failure_error_invariant
    (s http_status : Status) (network_fail_open : Bool)
    (convert : Status × CheckResponseInfo)
    (qconvert : Status × QuotaResponseInfo) (stats : FilterStats)
    (hfail : http_status.ok = false) :
    (failCallStatusToScResponseError s).is_network_error = true ∧
    (failCallStatusToScResponseError s).type =
      ScResponseErrorType.ERROR_TYPE_UNSPECIFIED ∧
    (∀ fstats : FilterStats,
      collectScResponseErrorStats fstats
        (failCallStatusToScResponseError s).type = fstats) ∧
    (∀ p ∈ (handleCheckResponse false convert http_status stats).invocations,
      p.2.error = failCallStatusToScResponseError http_status) ∧
    (http_status.code ≠ StatusCode.kUnavailable →
      ∀ p ∈ (handleCheckResponse network_fail_open convert http_status
          stats).invocations,
        p.2.error = failCallStatusToScResponseError http_status) ∧
    (∀ p ∈ (handleQuotaOnDone qconvert http_status stats).invocations,
      p.2.error = failCallStatusToScResponseError http_status) := by
  have hcode : http_status.code ≠ StatusCode.kOk :=
    (Status.ok_eq_false_iff http_status).mp hfail
  refine ⟨rfl, rfl, fun fstats => rfl, ?_, ?_, ?_⟩
  · by_cases hu : http_status.code = StatusCode.kUnavailable
    · simp [handleCheckResponse, checkFinalStatus, checkPreInfo, checkPreStats,
        hfail, hu, Status.ok]
    · simp [handleCheckResponse, checkFinalStatus, checkPreInfo, checkPreStats,
        hfail, hu, hcode, Status.ok]
  · intro hu
    simp [handleCheckResponse, checkFinalStatus, checkPreInfo, checkPreStats,
      hfail, hu, hcode, Status.ok]
  · simp [handleQuotaOnDone, hfail]

/-- Witness for C10: at a concrete failed transport status, the Quota
failure path's delivered error is the synthesized network error. -/
theorem transport_failure_error_invariant_witness :
    ({ error := failCallStatusToScResponseError
          { code := StatusCode.kPermissionDenied, message := "e" } } :
        QuotaResponseInfo).error =
      failCallStatusToScResponseError
        { code := StatusCode.kPermissionDenied, message := "e" } :=
  (transport_failure_error_invariant OkStatus
    { code := StatusCode.kPermissionDenied, message := "e" } true
    (OkStatus, CheckResponseInfo.default)
    (OkStatus, QuotaResponseInfo.default) ⟨0, 0, 0, 0, 0, 0⟩
    (by decide)).2.2.2.2.2
      ({ code := StatusCode.kPermissionDenied, message := "e" },
       { error := failCallStatusToScResponseError
           { code := StatusCode.kPermissionDenied, message := "e" } })
      (by simp [handleQuotaOnDone, QuotaResponseInfo.default, Status.ok])

/-- C1: for every Check completion whose final status is Unavailable, the
delivered `api_key_state` is NOT_CHECKED; with fail-open enabled the caller
receives OK and `allowed_control_plane_fault` increments by one (for any
request content); with fail-open disabled the caller receives the original
Unavailable code, and a transport-rooted failure sets the ResponseInfo
error from the transport status. -/
theorem check_unavailable_policy
    (network_fail_open : Bool) (convert : Status × CheckResponseInfo)
    (http_status : Status) (stats : FilterStats)
    (hfin : (checkFinalStatus convert http_status).code =
      StatusCode.kUnavailable) :
    let r := handleCheckResponse network_fail_open convert http_status stats
    (∀ p ∈ r.invocations, p.2.api_key_state = ApiKeyState.NOT_CHECKED) ∧
    (network_fail_open = true →
      (∀ p ∈ r.invocations, p.1 = OkStatus) ∧
      r.stats.allowed_control_plane_fault =
        stats.allowed_control_plane_fault + 1) ∧
    (network_fail_open = false →
      ∀ p ∈ r.invocations,
        p.1.code = StatusCode.kUnavailable ∧
        (http_status.ok = false →
          p.2.error = failCallStatusToScResponseError http_status)) := by
  intro r
  have hnotok : (checkFinalStatus convert http_status).ok = false := by
    simp [Status.ok, hfin]
  cases hok : http_status.ok with
  | true =>
      have hconv : convert.1.code = StatusCode.kUnavailable := by
        simpa [checkFinalStatus, hok] using hfin
      have hconvok : convert.1.ok = false := by
        simp [Status.ok, hconv]
      cases network_fail_open <;>
        simp [r, handleCheckResponse, checkFinalStatus, checkPreInfo,
          checkPreStats, hok, hconv, hconvok,
          collectScResponseErrorStats_allowed]
  | false =>
      have hcode : http_status.code = StatusCode.kUnavailable := by
        simpa [checkFinalStatus, hok] using hfin
      cases network_fail_open <;>
        simp [r, handleCheckResponse, checkFinalStatus, checkPreInfo,
          checkPreStats, hok, hcode, Status.ok]

/-- Witness for C1: with fail-open enabled and a concrete Unavailable
transport outcome, `allowed_control_plane_fault` goes from 0 to 1. -/
theorem check_unavailable_policy_witness :
    (handleCheckResponse true (OkStatus, CheckResponseInfo.default)
      { code := StatusCode.kUnavailable, message := "down" }
      ⟨0, 0, 0, 0, 0, 0⟩).stats.allowed_control_plane_fault = 0 + 1 :=
  ((check_unavailable_policy true (OkStatus, CheckResponseInfo.default)
    { code := StatusCode.kUnavailable, message := "down" }
    ⟨0, 0, 0, 0, 0, 0⟩ (by decide)).2.1 rfl).2

/-- C2: when the transport succeeded, an OK converted status yields allow
with `api_key_state` VERIFIED; a converted status that is neither OK nor
Unavailable (the Unavailable branch is the fail-open policy of C1) yields
deny with the service-level status delivered unchanged, classifying the API
key as INVALID for `API_KEY_INVALID`, NOT_ENABLED for
`SERVICE_NOT_ACTIVATED` and VERIFIED for every other error type. -/
theorem check_http_ok_classification
    (network_fail_open : Bool) (convert : Status × CheckResponseInfo)
    (http_status : Status) (stats : FilterStats)
    (hok : http_status.ok = true) :
    let r := handleCheckResponse network_fail_open convert http_status stats
    (convert.1.code = StatusCode.kOk →
      r.invocations =
        [(convert.1,
          { convert.2 with api_key_state := ApiKeyState.VERIFIED })]) ∧
    (convert.1.code ≠ StatusCode.kOk →
      convert.1.code ≠ StatusCode.kUnavailable →
      (∀ p ∈ r.invocations, p.1 = convert.1 ∧ p.2.error = convert.2.error) ∧
      (convert.2.error.type = ScResponseErrorType.API_KEY_INVALID →
        ∀ p ∈ r.invocations, p.2.api_key_state = ApiKeyState.INVALID) ∧
      (convert.2.error.type = ScResponseErrorType.SERVICE_NOT_ACTIVATED →
        ∀ p ∈ r.invocations, p.2.api_key_state = ApiKeyState.NOT_ENABLED) ∧
      (convert.2.error.type ≠ ScResponseErrorType.API_KEY_INVALID →
        convert.2.error.type ≠ ScResponseErrorType.SERVICE_NOT_ACTIVATED →
        ∀ p ∈ r.invocations, p.2.api_key_state = ApiKeyState.VERIFIED)) := by
  intro r
  have hokc : http_status.code = StatusCode.kOk :=
    (Status.ok_iff http_status).mp hok
  constructor
  · intro hconv
    simp [r, handleCheckResponse, checkFinalStatus, checkPreInfo,
      checkPreStats, hokc, hconv, Status.ok]
  · intro hne hnu
    refine ⟨?_, ?_, ?_, ?_⟩
    · simp [r, handleCheckResponse, checkFinalStatus, checkPreInfo,
        checkPreStats, hokc, hne, hnu, Status.ok]
    · intro ht
      simp [r, handleCheckResponse, checkFinalStatus, checkPreInfo,
        checkPreStats, hokc, hne, hnu, ht, Status.ok]
    · intro ht
      simp [r, handleCheckResponse, checkFinalStatus, checkPreInfo,
        checkPreStats, hokc, hne, hnu, ht, Status.ok]
    · intro ht1 ht2
      simp [r, handleCheckResponse, checkFinalStatus, checkPreInfo,
        checkPreStats, hokc, hne, hnu, ht1, ht2, Status.ok]

/-- Witness for C2: a concrete successful transport with an OK converted
status delivers allow with a VERIFIED key. -/
theorem check_http_ok_classification_witness :
    (handleCheckResponse true (OkStatus, CheckResponseInfo.default) OkStatus
      ⟨0, 0, 0, 0, 0, 0⟩).invocations =
    [(OkStatus,
      { CheckResponseInfo.default with
          api_key_state := ApiKeyState.VERIFIED })] :=
  (check_http_ok_classification true (OkStatus, CheckResponseInfo.default)
    OkStatus ⟨0, 0, 0, 0, 0, 0⟩ rfl).1 rfl

/-- Counterexample for C3: at a concrete non-Unavailable transport failure
(401 Unauthenticated with an internal detail message), the status delivered
to the caller keeps the original internal error text as its message (only
the code is replaced by Internal), and the ResponseInfo error field holds
only the original status code name — not the original detail — so the
original detail is retained in the caller-visible status, not only in the
error field. -/
theorem check_operator_fault_cex :
    (handleCheckResponse true (OkStatus, CheckResponseInfo.default)
      { code := StatusCode.kUnauthenticated,
        message := "internal auth detail" }
      ⟨0, 0, 0, 0, 0, 0⟩).invocations =
    [({ code := StatusCode.kInternal, message := "internal auth detail" },
      { error := { name := "UNAUTHENTICATED", is_network_error := true,
                   type := ScResponseErrorType.ERROR_TYPE_UNSPECIFIED },
        api_key_state := ApiKeyState.NOT_CHECKED })] := by
  decide

/-- C3 (amended): for every Check call whose transport fails with a
non-Unavailable status, the decision is deny with the status code replaced
by Internal while the status message preserves the original error detail,
`api_key_state` is NOT_CHECKED, the ResponseInfo error field records only
the original transport status code name as a network error, and
`denied_producer_error` increments by one. -/
theorem check_operator_fault_amended
    (network_fail_open : Bool) (convert : Status × CheckResponseInfo)
    (http_status : Status) (stats : FilterStats)
    (hfail : http_status.ok = false)
    (hnu : http_status.code ≠ StatusCode.kUnavailable) :
    let r := handleCheckResponse network_fail_open convert http_status stats
    r.invocations =
      [({ code := StatusCode.kInternal, message := http_status.message },
        { error := failCallStatusToScResponseError http_status,
          api_key_state := ApiKeyState.NOT_CHECKED })] ∧
    r.stats.denied_producer_error = stats.denied_producer_error + 1 := by
  intro r
  have hcode : http_status.code ≠ StatusCode.kOk :=
    (Status.ok_eq_false_iff http_status).mp hfail
  constructor <;>
    simp [r, handleCheckResponse, checkFinalStatus, checkPreInfo,
      checkPreStats, hfail, hnu, hcode, Status.ok, CheckResponseInfo.default]

/-- Witness for C3 (amended): a concrete 401 transport failure increments
`denied_producer_error` from 0 to 1. -/
theorem check_operator_fault_amended_witness :
    (handleCheckResponse true (OkStatus, CheckResponseInfo.default)
      { code := StatusCode.kUnauthenticated, message := "d" }
      ⟨0, 0, 0, 0, 0, 0⟩).stats.denied_producer_error = 0 + 1 :=
  (check_operator_fault_amended true (OkStatus, CheckResponseInfo.default)
    { code := StatusCode.kUnauthenticated, message := "d" }
    ⟨0, 0, 0, 0, 0, 0⟩ (by decide) (by decide)).2

/-- Counterexample for C5: at a concrete Quota transport failure
(Unauthenticated with an internal detail message), the status delivered to
the caller is the original transport status itself — code and message both
unchanged, not a generic internal error — so the Quota OperatorFault path
performs no scrubbing at all. -/
theorem quota_fault_not_scrubbed_cex :
    (handleQuotaOnDone (OkStatus, QuotaResponseInfo.default)
      { code := StatusCode.kUnauthenticated,
        message := "internal auth detail" }
      ⟨0, 0, 0, 0, 0, 0⟩).invocations =
    [({ code := StatusCode.kUnauthenticated,
        message := "internal auth detail" },
      { error := { name := "UNAUTHENTICATED", is_network_error := true,
                   type := ScResponseErrorType.ERROR_TYPE_UNSPECIFIED } })] := by
  decide

/-- C5 (amended): for Check calls, a DecodeError or OperatorFault outcome
(transport failure with a non-Unavailable status) is delivered with the
status code replaced by Internal but the original message preserved, and
the ResponseInfo error field records only the original status code name as
a network error; for Quota calls the transport-failure status is delivered
to the caller completely unchanged, with the same ResponseInfo error
synthesis. -/
theorem scrub_policy_amended
    (network_fail_open : Bool) (convert : Status × CheckResponseInfo)
    (qconvert : Status × QuotaResponseInfo) (http_status : Status)
    (stats : FilterStats) (hfail : http_status.ok = false) :
    (http_status.code ≠ StatusCode.kUnavailable →
      (handleCheckResponse network_fail_open convert http_status
          stats).invocations =
        [({ code := StatusCode.kInternal, message := http_status.message },
          { error := failCallStatusToScResponseError http_status,
            api_key_state := ApiKeyState.NOT_CHECKED })]) ∧
    (handleQuotaOnDone qconvert http_status stats).invocations =
      [(http_status,
        { error := failCallStatusToScResponseError http_status })] := by
  have hcode : http_status.code ≠ StatusCode.kOk :=
    (Status.ok_eq_false_iff http_status).mp hfail
  constructor
  · intro hnu
    simp [handleCheckResponse, checkFinalStatus, checkPreInfo, checkPreStats,
      hfail, hnu, hcode, Status.ok, CheckResponseInfo.default]
  · simp [handleQuotaOnDone, hfail, QuotaResponseInfo.default]

/-- Witness for C5 (amended): a concrete Quota transport failure delivers
the original status with the synthesized network error. -/
theorem scrub_policy_amended_witness :
    (handleQuotaOnDone (OkStatus, QuotaResponseInfo.default)
      { code := StatusCode.kDeadlineExceeded, message := "t" }
      ⟨0, 0, 0, 0, 0, 0⟩).invocations =
    [({ code := StatusCode.kDeadlineExceeded, message := "t" },
      { error := failCallStatusToScResponseError
          { code := StatusCode.kDeadlineExceeded, message := "t" } })] :=
  (scrub_policy_amended true (OkStatus, CheckResponseInfo.default)
    (OkStatus, QuotaResponseInfo.default)
    { code := StatusCode.kDeadlineExceeded, message := "t" }
    ⟨0, 0, 0, 0, 0, 0⟩ (by decide)).2

/-- C7: every `handleCheckResponse` run delivers exactly one `on_done`
invocation (one allow-or-deny decision) and assigns `api_key_state` exactly
once, and the branch guards on the final status (OK / Unavailable / any
other non-OK) are mutually exclusive and exhaustive. -/
theorem check_exactly_once
    (network_fail_open : Bool) (convert : Status × CheckResponseInfo)
    (http_status : Status) (stats : FilterStats) :
    let fs := checkFinalStatus convert http_status
    let r := handleCheckResponse network_fail_open convert http_status stats
    r.invocations.length = 1 ∧
    r.apiKeyAssignments.length = 1 ∧
    (fs.code = StatusCode.kOk ∨ fs.code = StatusCode.kUnavailable ∨
      (fs.code ≠ StatusCode.kOk ∧ fs.code ≠ StatusCode.kUnavailable)) ∧
    ¬(fs.code = StatusCode.kOk ∧ fs.code = StatusCode.kUnavailable) := by
  intro fs r
  refine ⟨?_, ?_, ?_, ?_⟩
  · simp only [r, handleCheckResponse]
    split
    · rfl
    · split
      · split <;> rfl
      · split <;> rfl
  · simp only [r, handleCheckResponse]
    split
    · rfl
    · split
      · split <;> rfl
      · split <;> rfl
  · by_cases h1 : fs.code = StatusCode.kOk
    · exact Or.inl h1
    · by_cases h2 : fs.code = StatusCode.kUnavailable
      · exact Or.inr (Or.inl h2)
      · exact Or.inr (Or.inr ⟨h1, h2⟩)
  · rintro ⟨h1, h2⟩
    rw [h1] at h2
    exact StatusCode.noConfusion h2

/-- Witness for C7: a concrete run delivers exactly one invocation. -/
theorem check_exactly_once_witness :
    (handleCheckResponse false (OkStatus, CheckResponseInfo.default)
      { code := StatusCode.kUnknown, message := "u" }
      ⟨0, 0, 0, 0, 0, 0⟩).invocations.length = 1 :=
  (check_exactly_once false (OkStatus, CheckResponseInfo.default)
    { code := StatusCode.kUnknown, message := "u" } ⟨0, 0, 0, 0, 0, 0⟩).1

end ClientCache
